/-
Verification of the metrics instrumentation subsystem of the
fastapi-monitoring-example service (src/app/main.py).

The Python module is shallowly embedded: handlers and the middleware become
pure Lean functions over an explicit application state; the event-loop /
thread scheduling relevant to the active-connections gauge is embedded as a
micro-operation interleaving machine; time values and metric samples are
passed in as explicit parameters (rationals stand for Python floats).
-/
import Mathlib

/-- Status-carrying HTTP response, the part of a Starlette response the
middleware inspects (`response.status_code`). -/
structure Response where
  statusCode : ℕ
deriving DecidableEq

/-- Python exception value: its concrete class name (`type(e).__name__`) and
message. Re-raising "the same" exception means returning the same value. -/
structure PyExn where
  name : String
  msg : String
deriving DecidableEq

/-- Module-level mutable state of src/app/main.py, plus the Prometheus metric
series the embedded handlers touch.  Counter/histogram series are keyed by
their label values; histogram series are modelled by the list of values
passed to `.observe` (bucketing itself is the concern of `Hist` below).

* `startTimeModule` is the module-level `start_time = time.time()` (line 113).
* `active` is the module-level `active_connections` integer (line 114).
* `gauge` is the current value of the `ACTIVE_CONNECTIONS` Prometheus gauge.
* `requestCount` is `REQUEST_COUNT` keyed by (method, endpoint, status_code).
* `durationObs` is `REQUEST_DURATION` keyed by (method, endpoint).
* `errorCount` is `ERROR_RATE` keyed by error_type.
* `businessCount` is `BUSINESS_METRICS` keyed by (operation_type, status).
* `dbQueryObs` is `DB_QUERY_DURATION`, `orderObs` is `ORDER_PROCESSING`.
* `log` records `logger.error` messages, most recent first. -/
structure AppState where
  startTimeModule : ℚ
  active : ℤ
  gauge : ℤ
  requestCount : String → String → ℕ → ℕ
  durationObs : String → String → List ℚ
  errorCount : String → ℕ
  businessCount : String → String → ℕ
  dbQueryObs : List ℚ
  orderObs : List ℚ
  log : List String

/-- An all-zero / all-empty application state, used to evaluate the embedded
functions at concrete inputs. -/
def AppState.init : AppState :=
  { startTimeModule := 0
    active := 0
    gauge := 0
    requestCount := fun _ _ _ => 0
    durationObs := fun _ _ => []
    errorCount := fun _ => 0
    businessCount := fun _ _ => 0
    dbQueryObs := []
    orderObs := []
    log := [] }

/-- Point update of the (method, endpoint, status_code) request counter:
`REQUEST_COUNT.labels(...).inc()`. -/
def bumpRequestCount (f : String → String → ℕ → ℕ) (m p : String) (c : ℕ) :
    String → String → ℕ → ℕ :=
  fun m' p' c' => if m' = m ∧ p' = p ∧ c' = c then f m p c + 1 else f m' p' c'

/-- Point update of the (method, endpoint) duration histogram series:
`REQUEST_DURATION.labels(...).observe(d)`. -/
def bumpDuration (f : String → String → List ℚ) (m p : String) (d : ℚ) :
    String → String → List ℚ :=
  fun m' p' => if m' = m ∧ p' = p then d :: f m p else f m' p'

/-- Point update of a counter keyed by one string label
(`ERROR_RATE.labels(error_type=...).inc()`). -/
def bumpLabeled (f : String → ℕ) (k : String) : String → ℕ :=
  fun k' => if k' = k then f k + 1 else f k'

/-- Point update of a counter keyed by two string labels
(`BUSINESS_METRICS.labels(operation_type=..., status=...).inc()`). -/
def bumpBusiness (f : String → String → ℕ) (op st : String) :
    String → String → ℕ :=
  fun op' st' => if op' = op ∧ st' = st then f op st + 1 else f op' st'

/-- Lines 121-122 of the middleware: `active_connections += 1` followed by
`ACTIVE_CONNECTIONS.set(active_connections)` — the gauge is set to the new
value of the module-level counter, not delta-added. -/
def enterActive (s : AppState) : AppState :=
  { s with active := s.active + 1, gauge := s.active + 1 }

/-- Lines 150-151, the `finally:` block: `active_connections -= 1` followed by
`ACTIVE_CONNECTIONS.set(active_connections)`. -/
def exitActive (s : AppState) : AppState :=
  { s with active := s.active - 1, gauge := s.active - 1 }

/-- The `metrics_middleware` function (src/app/main.py lines 117-151) run for
one request, sequentially.  `tStart` is the value of the request-local
`start_time = time.time()` on line 124 (a function-local binding: the `global`
statement on line 119 names only `active_connections`, so the module-level
`start_time` is not touched); `tEnd` is the value of `time.time()` on
line 130.  `handler` is the outcome of `await call_next(request)`: a response,
or the exception the downstream handler raised.  The `try/except/finally`
is embedded by running the `finally:` block (`exitActive`) on both exit paths
before the result — response or re-raised exception — is returned. -/
def metricsMiddleware (s : AppState) (method path : String) (tStart tEnd : ℚ)
    (handler : Except PyExn Response) : AppState × Except PyExn Response :=
  let s1 := enterActive s
  match handler with
  | .ok response =>
      let duration := tEnd - tStart
      let s2 := { s1 with durationObs := bumpDuration s1.durationObs method path duration }
      let s3 := { s2 with
        requestCount := bumpRequestCount s2.requestCount method path response.statusCode }
      (exitActive s3, .ok response)
  | .error e =>
      let s2 := { s1 with errorCount := bumpLabeled s1.errorCount e.name }
      let s3 := { s2 with log := ("Request failed: " ++ e.msg) :: s2.log }
      (exitActive s3, .error e)

/-- The `process_order` handler (src/app/main.py lines 239-270).  `tStart` is
the handler-local `start_time = time.time()` on line 242 — again a
function-local binding (no `global` statement in `process_order`), so the
module-level `start_time` is untouched.  `dbDur` is the elapsed time the
`with DB_QUERY_DURATION.time():` block observes, `tEnd` the value of
`time.time()` on line 254, and `body` the outcome of the simulated
processing: on an exception the handler records error metrics and raises
`HTTPException(500)`. -/
def processOrder (s : AppState) (tStart tEnd dbDur : ℚ)
    (body : Except PyExn Unit) : AppState × Except PyExn Response :=
  match body with
  | .ok _ =>
      let s1 := { s with dbQueryObs := dbDur :: s.dbQueryObs }
      let s2 := { s1 with orderObs := (tEnd - tStart) :: s1.orderObs }
      let s3 := { s2 with
        businessCount := bumpBusiness s2.businessCount "order_processing" "success" }
      (s3, .ok ⟨200⟩)
  | .error e =>
      let s1 := { s with
        businessCount := bumpBusiness s.businessCount "order_processing" "error" }
      let s2 := { s1 with
        errorCount := bumpLabeled s1.errorCount "order_processing_error" }
      (s2, .error ⟨"HTTPException", e.msg⟩)

/-- The uptime computed by the `health_check` endpoint (lines 192-201):
`uptime = time.time() - start_time`, reading the module-level `start_time`. -/
def healthUptime (s : AppState) (now : ℚ) : ℚ :=
  now - s.startTimeModule

/-- State touched by the `collect_system_metrics` background task: the four
gauges it writes and the error log. -/
structure SamplerState where
  cpuGauge : ℚ
  memGauge : ℚ
  diskGauge : ℚ
  dbGauge : ℚ
  log : List String
deriving DecidableEq

/-- One tick's worth of external inputs to the sampler loop body: the three
psutil reads (each of which may raise) and the simulated
`random.randint(10, 50)` database-connection count.  `disk` carries the pair
(`disk.used`, `disk.total`). -/
structure TickInput where
  cpu : Except PyExn ℚ
  mem : Except PyExn ℚ
  disk : Except PyExn (ℚ × ℚ)
  db : ℤ

/-- Whether some psutil read of the tick raises. -/
def TickInput.failed (inp : TickInput) : Bool :=
  (match inp.cpu with | .error _ => true | .ok _ => false) ||
  (match inp.mem with | .error _ => true | .ok _ => false) ||
  (match inp.disk with | .error _ => true | .ok _ => false)

/-- The `except` branch of the sampler loop (line 177):
`logger.error(f"Error collecting system metrics: ...")`. -/
def samplerLogErr (s : SamplerState) (e : PyExn) : SamplerState :=
  { s with log := ("Error collecting system metrics: " ++ e.msg) :: s.log }

/-- One iteration of the `while True:` loop of `collect_system_metrics`
(src/app/main.py lines 154-178).  The gauge writes happen in source order, so
a read that raises leaves the earlier gauges already written; the exception
transfers control to the `except` branch, which logs and suspends.  The ℕ
component is the argument of the `await asyncio.sleep` that ends the
iteration — 10 on the success path (line 174) and 10 on the failure path
(line 178).  The loop has no `break` or `return`: every iteration produces a
successor state, never a termination signal. -/
def samplerTick (s : SamplerState) (inp : TickInput) : SamplerState × ℕ :=
  match inp.cpu with
  | .error e => (samplerLogErr s e, 10)
  | .ok c =>
    let s1 := { s with cpuGauge := c }
    match inp.mem with
    | .error e => (samplerLogErr s1 e, 10)
    | .ok m =>
      let s2 := { s1 with memGauge := m }
      match inp.disk with
      | .error e => (samplerLogErr s2 e, 10)
      | .ok dd =>
        let s3 := { s2 with diskGauge := dd.1 / dd.2 * 100 }
        ({ s3 with dbGauge := (inp.db : ℚ) }, 10)

/-- The sampler loop run over a finite list of tick inputs: every element is
consumed, whatever the outcome of each tick. -/
def samplerRun (s : SamplerState) : List TickInput → SamplerState
  | [] => s
  | inp :: rest => samplerRun (samplerTick s inp).1 rest

/-
Interleaving machine for the active-connections gauge (claim C1).

CPython executes `active_connections += 1` as a load of the global, then a
store of the incremented value, and `ACTIVE_CONNECTIONS.set(active_connections)`
as a read of the global handed to the gauge's set.  Under preemptive
scheduling of two in-flight requests these micro-operations interleave
arbitrarily.
-/

/-- One atomic micro-operation on the shared state (module counter + gauge)
and the executing thread's temporary. -/
inductive MicroOp where
  | loadGlobal
  | storeGlobal (d : ℤ)
  | setGauge
  | addGauge (d : ℤ)
deriving DecidableEq

/-- Effect of one micro-operation: takes (global, gauge, thread temp) to the
updated triple. -/
def MicroOp.exec (g gauge tmp : ℤ) : MicroOp → ℤ × ℤ × ℤ
  | .loadGlobal => (g, gauge, g)
  | .storeGlobal d => (tmp + d, gauge, tmp)
  | .setGauge => (g, g, tmp)
  | .addGauge d => (g, gauge + d, tmp)

/-- The gauge-relevant micro-operations one request executes in
`metrics_middleware` as written: `active_connections += 1` (load, store +1),
`ACTIVE_CONNECTIONS.set(active_connections)` (set gauge from global), then —
after the handler — the `finally:` block (load, store −1, set). -/
def requestMicroOps : List MicroOp :=
  [.loadGlobal, .storeGlobal 1, .setGauge,
   .loadGlobal, .storeGlobal (-1), .setGauge]

/-- Modelled from the spec: the concurrency note of §4.3 requires the gauge
updates to be "an atomic delta-add, not the read-then-write pattern" — i.e.
a single atomic `gauge += δ` per update (the Prometheus client's
`Gauge.inc`/`Gauge.dec`), with no shadow counter and no `set`.  This program
is what the spec prescribes for one request; it is not what the source does. -/
def atomicDeltaMicroOps : List MicroOp :=
  [.addGauge 1, .addGauge (-1)]

/-- Shared memory plus the program counters and temporaries of two concurrent
request threads A and B. -/
structure ConcState where
  global : ℤ
  gauge : ℤ
  pcA : ℕ
  pcB : ℕ
  tmpA : ℤ
  tmpB : ℤ
deriving DecidableEq

/-- Run one scheduling step: thread `false` = A, `true` = B executes its next
micro-operation (no-op if its program is finished). -/
def concStep (prog : List MicroOp) (s : ConcState) (b : Bool) : ConcState :=
  if b then
    match prog.get? s.pcB with
    | none => s
    | some op =>
      let r := op.exec s.global s.gauge s.tmpB
      { s with global := r.1, gauge := r.2.1, tmpB := r.2.2, pcB := s.pcB + 1 }
  else
    match prog.get? s.pcA with
    | none => s
    | some op =>
      let r := op.exec s.global s.gauge s.tmpA
      { s with global := r.1, gauge := r.2.1, tmpA := r.2.2, pcA := s.pcA + 1 }

/-- Execute a schedule (an interleaving of the two threads, both running
`prog`) from the all-zero initial state. -/
def concExec (prog : List MicroOp) (sched : List Bool) : ConcState :=
  sched.foldl (concStep prog) ⟨0, 0, 0, 0, 0, 0⟩

/-- The interleaving in which both requests read `active_connections = 0`
before either stores: A and B each load, then each store 1, then each set the
gauge; A then runs its `finally:` block to completion, then B runs its
`finally:` block. -/
def lostUpdateSched : List Bool :=
  [false, true, false, true, false, true,
   false, false, false, true, true, true]

/-- Errors of the registry / instrument contract (spec §7). -/
inductive MetricError where
  | invalidDelta
  | duplicateMetric
deriving DecidableEq

/-- Modelled from the spec: the Counter instrument implementation lives in the
external prometheus client library — src/app/main.py only declares counters
(lines 28-69) and calls `.inc()` on them.  Spec §4.2: "Counter.increment
(delta ≥ 0): fails with InvalidDeltaError if delta < 0 (counters are
monotonic by contract)"; otherwise the delta is added to the accumulator. -/
def counterIncrement (v d : ℚ) : Except MetricError ℚ :=
  if d < 0 then .error .invalidDelta else .ok (v + d)

/-- The counter value after one `increment` call: a rejected (negative-delta)
call leaves the value unchanged. -/
def counterApply (v d : ℚ) : ℚ :=
  match counterIncrement v d with
  | .ok w => w
  | .error _ => v

/-- The counter value after a sequence of `increment` calls. -/
def counterRun (v : ℚ) : List ℚ → ℚ
  | [] => v
  | d :: ds => counterRun (counterApply v d) ds

/-- A histogram bucket's upper bound: a finite bound, or the implicit +Inf
bucket above the largest configured bound. -/
inductive UBound where
  | fin (b : ℚ)
  | inf
deriving DecidableEq

/-- Whether a bucket with this upper bound counts the observed value `v`
(cumulative-bucket convention: bound ≥ value; the +Inf bucket counts
everything). -/
def UBound.covers (u : UBound) (v : ℚ) : Bool :=
  match u with
  | .fin b => decide (v ≤ b)
  | .inf => true

/-- Order on bucket bounds, +Inf above every finite bound. -/
def UBound.below (u w : UBound) : Bool :=
  match u, w with
  | .fin a, .fin b => decide (a ≤ b)
  | _, .inf => true
  | .inf, .fin _ => false

/-- Modelled from the spec: a Histogram series (spec §3) — the implementation
lives in the external prometheus client library, src only declares histograms
and calls `.observe`.  `series` pairs each bucket upper bound with its
cumulative count, in bound order with the implicit +Inf bucket last; `sum`
and `count` are the running sum and the total observation count. -/
structure Hist where
  series : List (UBound × ℕ)
  sum : ℚ
  count : ℕ
deriving DecidableEq

/-- A fresh histogram series over the configured ascending bounds, all
cumulative counts zero. -/
def histInit (bounds : List ℚ) : Hist :=
  { series := (bounds.map fun b => (UBound.fin b, 0)) ++ [(UBound.inf, 0)]
    sum := 0
    count := 0 }

/-- Modelled from the spec: "Histogram.observe(value): increments the count of
every bucket whose upper bound ≥ value (cumulative-bucket convention),
increments total count, adds value to running sum" (spec §4.2). -/
def histObserve (h : Hist) (v : ℚ) : Hist :=
  { series := h.series.map fun bc => if bc.1.covers v then (bc.1, bc.2 + 1) else bc
    sum := h.sum + v
    count := h.count + 1 }

/-- A histogram after a sequence of observations. -/
def histRun (h : Hist) (vs : List ℚ) : Hist :=
  vs.foldl histObserve h

/-- Well-formedness of one step of a histogram series list: bounds ascend and
cumulative counts do not decrease. -/
def bucketStepOrdered (x y : UBound × ℕ) : Prop :=
  x.1.below y.1 = true ∧ x.2 ≤ y.2

/-- The metric kinds a registry declaration can have. -/
inductive MetricKind where
  | counter
  | gauge
  | histogram
deriving DecidableEq

/-- A metric declaration: its kind and its declared label-key set (spec §3:
fixed at registration time). -/
structure MetricDecl where
  kind : MetricKind
  labelKeys : List String
deriving DecidableEq

/-- The registry's name-to-declaration map, newest first. -/
abbrev Registry := List (String × MetricDecl)

/-- Modelled from the spec: `register(name, kind, labelKeys, ...)` of the
MetricRegistry (spec §4.1) — the registry implementation lives in the
external prometheus client library, src only declares metrics against the
default registry.  "Fails with DuplicateMetricError if name is already
registered with a different kind or label-key set; re-registration with
identical declaration is a no-op (idempotent)." -/
def registerMetric (reg : Registry) (name : String) (d : MetricDecl) :
    Except MetricError Registry :=
  match reg.lookup name with
  | none => .ok ((name, d) :: reg)
  | some d0 =>
      if d0.kind = d.kind ∧ d0.labelKeys = d.labelKeys then .ok reg
      else .error .duplicateMetric

/-
Theorems.
-/

theorem counterRun_eq (ds : List ℚ) (v : ℚ) :
    counterRun v ds = v + (ds.filter fun x => decide (0 ≤ x)).sum := by
  induction ds generalizing v with
  | nil => simp [counterRun]
  | cons d ds ih =>
      rw [counterRun, ih]
      by_cases hd : 0 ≤ d
      · rw [List.filter_cons_of_pos (by simpa using hd)]
        simp only [List.sum_cons]
        have : counterApply v d = v + d := by
          simp [counterApply, counterIncrement, not_lt.mpr hd]
        rw [this]; ring
      · rw [List.filter_cons_of_neg (by simpa using hd)]
        have : counterApply v d = v := by
          simp [counterApply, counterIncrement, lt_of_not_ge hd]
        rw [this]

theorem counterRun_mono (ds : List ℚ) (v : ℚ) : v ≤ counterRun v ds := by
  rw [counterRun_eq]
  have : 0 ≤ (ds.filter fun x => decide (0 ≤ x)).sum := by
    apply List.sum_nonneg
    intro x hx
    have := List.of_mem_filter hx
    simpa using this
  linarith

theorem histObserve_chain (h : Hist) (v : ℚ)
    (hc : List.Chain' bucketStepOrdered h.series) :
    List.Chain' bucketStepOrdered (histObserve h v).series := by
  rw [histObserve]
  simp only [List.chain'_map]
  apply hc.imp
  intro x y hxy
  obtain ⟨hb, hn⟩ := hxy
  constructor
  · by_cases hx : x.1.covers v = true <;> by_cases hy : y.1.covers v = true <;>
      simp [hx, hy, hb]
  · by_cases hx : x.1.covers v = true
    · have hy : y.1.covers v = true := by
        cases hx1 : x.1 with
        | inf => cases hy1 : y.1 with
          | inf => simp [UBound.covers]
          | fin b => rw [hx1, hy1] at hb; simp [UBound.below] at hb
        | fin a => cases hy1 : y.1 with
          | inf => simp [UBound.covers]
          | fin b =>
              rw [hx1] at hx; rw [hx1, hy1] at hb
              simp only [UBound.covers, decide_eq_true_eq] at hx ⊢
              simp only [UBound.below, decide_eq_true_eq] at hb
              exact le_trans hx hb
      simp [hx, hy, hn]
    · by_cases hy : y.1.covers v = true <;> simp [hx, hy] <;> omega

theorem histRun_chain (vs : List ℚ) (h : Hist)
    (hc : List.Chain' bucketStepOrdered h.series) :
    List.Chain' bucketStepOrdered (histRun h vs).series := by
  induction vs generalizing h with
  | nil => exact hc
  | cons v vs ih => exact ih _ (histObserve_chain h v hc)

/-- C1: the claim says each increment/decrement of the active-connections
gauge is an atomic delta-add, so that every interleaving of concurrent
requests leaves the gauge at the sum of the applied deltas.  The source
instead keeps a plain module-level counter updated by a non-atomic
read-then-store and publishes it with `ACTIVE_CONNECTIONS.set`.  Under the
interleaving `lostUpdateSched` of two requests (each applying deltas +1 and
−1, so the delta-sum is 0) the code's micro-operations drive the gauge to
−1 — a lost update — while the atomic delta-add program the spec prescribes
ends at 0 on the very same schedule. -/
theorem C1_active_gauge_lost_update :
    (concExec requestMicroOps lostUpdateSched).gauge = -1 ∧
    (concExec requestMicroOps lostUpdateSched).gauge ≠ (1 + -1) + (1 + -1) ∧
    (concExec atomicDeltaMicroOps lostUpdateSched).gauge = (1 + -1) + (1 + -1) := by
  refine ⟨by decide, by decide, by decide⟩

/-- C2: for every request, whichever exit path the middleware takes (handler
response or handler exception), the `finally:` block runs exactly once: the
module-level counter returns to its pre-request value, the gauge ends one
below its post-entry value, and — whenever the gauge agreed with the counter
before the request — the gauge returns to its pre-request value. -/
theorem C2_active_gauge_restored (s : AppState) (method path : String)
    (tStart tEnd : ℚ) (handler : Except PyExn Response) :
    (metricsMiddleware s method path tStart tEnd handler).1.active = s.active ∧
    (metricsMiddleware s method path tStart tEnd handler).1.gauge =
      (enterActive s).gauge - 1 ∧
    (s.gauge = s.active →
      (metricsMiddleware s method path tStart tEnd handler).1.gauge = s.gauge) := by
  cases handler with
  | ok r =>
      refine ⟨by simp [metricsMiddleware, enterActive, exitActive], ?_, ?_⟩
      · simp [metricsMiddleware, enterActive, exitActive]
      · intro hg
        simp [metricsMiddleware, enterActive, exitActive, hg]
  | error e =>
      refine ⟨by simp [metricsMiddleware, enterActive, exitActive], ?_, ?_⟩
      · simp [metricsMiddleware, enterActive, exitActive]
      · intro hg
        simp [metricsMiddleware, enterActive, exitActive, hg]

theorem C2_witness :
    (metricsMiddleware AppState.init "POST" "/orders" 0 1
        (.error ⟨"RuntimeError", "boom"⟩)).1.gauge = AppState.init.gauge :=
  (C2_active_gauge_restored AppState.init "POST" "/orders" 0 1
      (.error ⟨"RuntimeError", "boom"⟩)).2.2 rfl

/-- C3: when the downstream handler raises, the middleware increments the
error counter at the label given by the exception's concrete class name and
returns the very same exception value to the caller — the failure is neither
swallowed nor converted into a different kind. -/
theorem C3_error_observed_and_reraised (s : AppState) (method path : String)
    (tStart tEnd : ℚ) (e : PyExn) :
    (metricsMiddleware s method path tStart tEnd (.error e)).2 = .error e ∧
    (metricsMiddleware s method path tStart tEnd (.error e)).1.errorCount e.name =
      s.errorCount e.name + 1 := by
  constructor
  · simp [metricsMiddleware]
  · simp [metricsMiddleware, enterActive, exitActive, bumpLabeled]

/-- C4: when the downstream handler completes normally, the middleware
returns the handler's response, pushes `duration = now − start` onto the
(method, path) duration-histogram series, and increments the
(method, path, status_code) request counter by exactly 1. -/
theorem C4_success_records_duration_and_count (s : AppState)
    (method path : String) (tStart tEnd : ℚ) (resp : Response) :
    (metricsMiddleware s method path tStart tEnd (.ok resp)).2 = .ok resp ∧
    (metricsMiddleware s method path tStart tEnd (.ok resp)).1.durationObs
        method path = (tEnd - tStart) :: s.durationObs method path ∧
    (metricsMiddleware s method path tStart tEnd (.ok resp)).1.requestCount
        method path resp.statusCode =
      s.requestCount method path resp.statusCode + 1 := by
  refine ⟨by simp [metricsMiddleware], ?_, ?_⟩
  · simp [metricsMiddleware, enterActive, exitActive, bumpDuration, bumpRequestCount]
  · simp [metricsMiddleware, enterActive, exitActive, bumpDuration, bumpRequestCount]

/-- C5: a Counter series (modelled from the spec, the implementation being in
the external prometheus client) rejects a negative delta with
`InvalidDeltaError` leaving the value unchanged, accepts a non-negative delta
by adding it, and after any call sequence from 0 holds exactly the sum of the
non-negative deltas; in particular the value never decreases. -/
theorem C5_counter_monotone_sum (v d : ℚ) (ds : List ℚ) :
    (d < 0 → counterIncrement v d = .error .invalidDelta ∧ counterApply v d = v) ∧
    (0 ≤ d → counterIncrement v d = .ok (v + d)) ∧
    counterRun 0 ds = (ds.filter fun x => decide (0 ≤ x)).sum ∧
    v ≤ counterRun v ds := by
  refine ⟨?_, ?_, ?_, counterRun_mono ds v⟩
  · intro hd
    constructor
    · simp [counterIncrement, hd]
    · simp [counterApply, counterIncrement, hd]
  · intro hd
    simp [counterIncrement, not_lt.mpr hd]
  · rw [counterRun_eq]; ring

theorem C5_witness :
    counterIncrement 5 (-1) = .error .invalidDelta ∧
    counterApply 5 (-1) = 5 ∧
    counterIncrement 5 2 = .ok 7 ∧
    counterRun 0 [1, -2, 3] = 4 ∧
    (0 : ℚ) ≤ counterRun 0 [1, -2, 3] := by
  have h1 := (C5_counter_monotone_sum 5 (-1) ([] : List ℚ)).1 (by norm_num)
  have h2 := (C5_counter_monotone_sum 5 2 ([] : List ℚ)).2.1 (by norm_num)
  have h3 := (C5_counter_monotone_sum 0 0 [1, -2, 3]).2.2.1
  have h4 := (C5_counter_monotone_sum 0 0 [1, -2, 3]).2.2.2
  refine ⟨h1.1, h1.2, ?_, ?_, h4⟩
  · rw [h2]; norm_num
  · rw [h3]
    norm_num [List.filter, List.sum_cons]

/-- C6: for a Histogram series (modelled from the spec, the implementation
being in the external prometheus client) each observation adds 1 to the total
count and the value to the running sum; the concrete series over buckets
[0.1, 0.5, 1.0] observing [0.05, 0.3, 2.0] ends with cumulative bucket counts
1, 2, 2 and +Inf count 3, sum 47/20 = 2.35 and total count 3; and whenever the
series list has ascending bounds and ascending counts, the cumulative counts
stay non-decreasing in the bucket bound after any sequence of observations. -/
theorem C6_histogram_cumulative_buckets (h0 : Hist) (v : ℚ) (vs : List ℚ) :
    ((histObserve h0 v).count = h0.count + 1 ∧ (histObserve h0 v).sum = h0.sum + v) ∧
    histRun (histInit [1/10, 1/2, 1]) [1/20, 3/10, 2] =
      ⟨[(.fin (1/10), 1), (.fin (1/2), 2), (.fin 1, 2), (.inf, 3)], 47/20, 3⟩ ∧
    (List.Chain' bucketStepOrdered h0.series →
      List.Chain' (fun x y => x.2 ≤ y.2) (histRun h0 vs).series) := by
  refine ⟨⟨rfl, rfl⟩, ?_, ?_⟩
  · norm_num [histRun, histObserve, histInit, UBound.covers]
  · intro hc
    exact (histRun_chain vs h0 hc).imp fun a b hab => hab.2

theorem C6_witness :
    ((histObserve (histInit [1/10, 1/2, 1]) (1/20)).count =
        (histInit [1/10, 1/2, 1]).count + 1 ∧
      (histObserve (histInit [1/10, 1/2, 1]) (1/20)).sum =
        (histInit [1/10, 1/2, 1]).sum + 1/20) ∧
    histRun (histInit [1/10, 1/2, 1]) [1/20, 3/10, 2] =
      ⟨[(.fin (1/10), 1), (.fin (1/2), 2), (.fin 1, 2), (.inf, 3)], 47/20, 3⟩ ∧
    List.Chain' (fun x y => x.2 ≤ y.2)
      (histRun (histInit [1/10, 1/2, 1]) [1/20, 3/10, 2]).series := by
  have h := C6_histogram_cumulative_buckets (histInit [1/10, 1/2, 1]) (1/20)
    [1/20, 3/10, 2]
  refine ⟨h.1, h.2.1, h.2.2 ?_⟩
  norm_num [histInit, bucketStepOrdered, UBound.below, List.chain'_cons]

/-- C7: one iteration of the sampler loop always ends in the same 10-unit
suspension, whichever psutil read raises; a failing iteration appends exactly
one log entry; and the loop construct consumes the remaining ticks after any
tick, so no single failed sampling attempt terminates the task. -/
theorem C7_sampler_survives_failure (s : SamplerState) (inp : TickInput)
    (rest : List TickInput) :
    (samplerTick s inp).2 = 10 ∧
    samplerRun s (inp :: rest) = samplerRun (samplerTick s inp).1 rest ∧
    (inp.failed = true →
      (samplerTick s inp).1.log.length = s.log.length + 1) := by
  obtain ⟨cpu, mem, disk, db⟩ := inp
  refine ⟨?_, rfl, ?_⟩
  · cases cpu with
    | error e => rfl
    | ok c =>
        cases mem with
        | error e => rfl
        | ok m =>
            cases disk with
            | error e => rfl
            | ok dd => rfl
  · intro hf
    cases cpu with
    | error e => simp [samplerTick, samplerLogErr]
    | ok c =>
        cases mem with
        | error e => simp [samplerTick, samplerLogErr]
        | ok m =>
            cases disk with
            | error e => simp [samplerTick, samplerLogErr]
            | ok dd => simp [TickInput.failed] at hf

theorem C7_witness :
    (samplerTick ⟨0, 0, 0, 0, []⟩
        ⟨.error ⟨"OSError", "host stats unavailable"⟩, .ok 0, .ok (0, 1), 0⟩).2 = 10 ∧
    samplerRun ⟨0, 0, 0, 0, []⟩
        [⟨.error ⟨"OSError", "host stats unavailable"⟩, .ok 0, .ok (0, 1), 0⟩] =
      (samplerTick ⟨0, 0, 0, 0, []⟩
        ⟨.error ⟨"OSError", "host stats unavailable"⟩, .ok 0, .ok (0, 1), 0⟩).1 ∧
    (samplerTick ⟨0, 0, 0, 0, []⟩
        ⟨.error ⟨"OSError", "host stats unavailable"⟩, .ok 0, .ok (0, 1), 0⟩).1.log.length =
      ([] : List String).length + 1 := by
  have h := C7_sampler_survives_failure ⟨0, 0, 0, 0, []⟩
    ⟨.error ⟨"OSError", "host stats unavailable"⟩, .ok 0, .ok (0, 1), 0⟩ []
  exact ⟨h.1, h.2.1, h.2.2 rfl⟩

/-- C8: a fully successful sampler tick writes the sampled CPU percentage,
memory percentage, disk percentage computed as used/total·100, and the
simulated database-connection count into their four gauges, leaves the log
alone, and suspends for the fixed interval of 10 time units. -/
theorem C8_sampler_success_tick (s : SamplerState) (c m du dt : ℚ) (db : ℤ) :
    samplerTick s ⟨.ok c, .ok m, .ok (du, dt), db⟩ =
      ({ s with cpuGauge := c, memGauge := m, diskGauge := du / dt * 100,
                dbGauge := (db : ℚ) }, 10) :=
  rfl

/-- C9: registering a fresh name succeeds and records the declaration;
re-registering an existing name with the same kind and label keys is a silent
no-op returning the unchanged registry; re-registering with a different kind
or label-key set fails with `DuplicateMetricError`.  (Modelled from the spec:
the registry implementation lives in the external prometheus client.) -/
theorem C9_register_idempotent_or_duplicate (reg : Registry) (name : String)
    (d d0 : MetricDecl) :
    (reg.lookup name = none →
      registerMetric reg name d = .ok ((name, d) :: reg)) ∧
    (reg.lookup name = some d0 → d0.kind = d.kind → d0.labelKeys = d.labelKeys →
      registerMetric reg name d = .ok reg) ∧
    (reg.lookup name = some d0 → ¬(d0.kind = d.kind ∧ d0.labelKeys = d.labelKeys) →
      registerMetric reg name d = .error .duplicateMetric) := by
  refine ⟨?_, ?_, ?_⟩
  · intro h
    simp [registerMetric, h]
  · intro h hk hl
    simp [registerMetric, h, hk, hl]
  · intro h hne
    simp only [registerMetric, h]
    rw [if_neg hne]

theorem C9_witness :
    registerMetric [("orders_total", ⟨.counter, ["status"]⟩)] "request_count"
        ⟨.counter, ["method"]⟩ =
      .ok [("request_count", ⟨.counter, ["method"]⟩),
           ("orders_total", ⟨.counter, ["status"]⟩)] ∧
    registerMetric [("orders_total", ⟨.counter, ["status"]⟩)] "orders_total"
        ⟨.counter, ["status"]⟩ =
      .ok [("orders_total", ⟨.counter, ["status"]⟩)] ∧
    registerMetric [("orders_total", ⟨.counter, ["status"]⟩)] "orders_total"
        ⟨.counter, ["outcome"]⟩ =
      .error .duplicateMetric := by
  refine ⟨?_, ?_, ?_⟩
  · exact (C9_register_idempotent_or_duplicate
      [("orders_total", ⟨.counter, ["status"]⟩)] "request_count"
      ⟨.counter, ["method"]⟩ ⟨.counter, ["status"]⟩).1 rfl
  · exact (C9_register_idempotent_or_duplicate
      [("orders_total", ⟨.counter, ["status"]⟩)] "orders_total"
      ⟨.counter, ["status"]⟩ ⟨.counter, ["status"]⟩).2.1 rfl rfl rfl
  · exact (C9_register_idempotent_or_duplicate
      [("orders_total", ⟨.counter, ["status"]⟩)] "orders_total"
      ⟨.counter, ["outcome"]⟩ ⟨.counter, ["status"]⟩).2.2 rfl (by simp)

/-- C10: neither the metrics middleware (either exit path) nor the
order-processing handler (either exit path) changes the module-level process
start timestamp — their `start_time = time.time()` lines bind function
locals — so the health endpoint's uptime is always `now` minus the process
start time. -/
theorem C10_start_time_is_process_start (s : AppState) (method path : String)
    (tStart tEnd now dbDur : ℚ) (handler : Except PyExn Response)
    (body : Except PyExn Unit) :
    (metricsMiddleware s method path tStart tEnd handler).1.startTimeModule =
      s.startTimeModule ∧
    (processOrder s tStart tEnd dbDur body).1.startTimeModule =
      s.startTimeModule ∧
    healthUptime s now = now - s.startTimeModule := by
  refine ⟨?_, ?_, rfl⟩
  · cases handler with
    | ok r => simp [metricsMiddleware, enterActive, exitActive]
    | error e => simp [metricsMiddleware, enterActive, exitActive]
  · cases body with
    | ok u => simp [processOrder]
    | error e => simp [processOrder]
